import Mathlib

/-!
Shallow embedding of the stereoscopic view compositor in `src/widget.cpp`
(Bino's `Widget` class).  C++ `float` arithmetic is modelled over `ℚ`,
C++ `int` over `Int`.  GPU calls (texture uploads, draw calls) are modelled
by their observable effect on the widget state plus an explicit trace of
what would be drawn; the texture allocation performed by `glTexImage2D`
when the stored dimensions differ is modelled by an allocation counter.
-/

/-- The `StereoMode` enumeration, in the order of the `switch` in
`Widget::paintGL` (widget.cpp lines 204-230). -/
inductive StereoMode where
  | Mode_Left
  | Mode_Right
  | Mode_Alternating
  | Mode_OpenGL_Stereo
  | Mode_Red_Cyan_Dubois
  | Mode_Red_Cyan_FullColor
  | Mode_Red_Cyan_HalfColor
  | Mode_Red_Cyan_Monochrome
  | Mode_Green_Magenta_Dubois
  | Mode_Green_Magenta_FullColor
  | Mode_Green_Magenta_HalfColor
  | Mode_Green_Magenta_Monochrome
  | Mode_Amber_Blue_Dubois
  | Mode_Amber_Blue_FullColor
  | Mode_Amber_Blue_HalfColor
  | Mode_Amber_Blue_Monochrome
  | Mode_Red_Green_Monochrome
  | Mode_Red_Blue_Monochrome
deriving DecidableEq, Repr

/-- One view texture of the texture cache: the stored dimensions
`_viewTexWidth[v]` / `_viewTexHeight[v]` plus a counter of storage
allocations (`glTexImage2D` calls on this texture), the observable the
spec uses for idempotence. -/
structure ViewTexState where
  width : Int
  height : Int
  allocCount : Nat
deriving DecidableEq, Repr

/-- The texture (re)allocation step of `Widget::paintGL`, widget.cpp lines
235-242: if the stored dimensions differ from the requested ones,
reallocate storage (one more allocation) and update the stored dimensions;
otherwise reuse the texture unchanged. -/
def ensureViewTexture (t : ViewTexState) (viewWidth viewHeight : Int) : ViewTexState :=
  if t.width ≠ viewWidth ∨ t.height ≠ viewHeight then
    { width := viewWidth, height := viewHeight, allocCount := t.allocCount + 1 }
  else
    t

/-- Per-frame geometry reported by `Bino::preRenderProcess`
(widget.cpp line 192). -/
structure FrameGeometry where
  viewCount : Int
  viewWidth : Int
  viewHeight : Int
  displayAspect : ℚ
  threeSixty : Bool
deriving DecidableEq, Repr

/-- The mutable state of `Widget` that the embedded member functions read
and write: `_stereoMode`, `_openGLStereo`, `_alternatingLastView`,
`_width`/`_height`, the two view textures, and the 360° orientation
fields. -/
structure WidgetState where
  stereoMode : StereoMode
  openGLStereo : Bool
  alternatingLastView : Int
  width : Int
  height : Int
  tex0 : ViewTexState
  tex1 : ViewTexState
  inThreeSixtyMovement : Bool
  threeSixtyMovementStart : ℚ × ℚ
  threeSixtyHorizontalAngleBase : ℚ
  threeSixtyVerticalAngleBase : ℚ
  threeSixtyHorizontalAngleCurrent : ℚ
  threeSixtyVerticalAngleCurrent : ℚ
deriving DecidableEq, Repr

/-- `Widget::setStereoMode` (widget.cpp lines 81-84). -/
def setStereoMode (s : WidgetState) (mode : StereoMode) : WidgetState :=
  { s with stereoMode := mode }

/-- The per-view `needThisView` computation of the `switch` in
`Widget::paintGL` (widget.cpp lines 203-230), for view index `v`
(0 = left, 1 = right).  `needThisView` starts `true` and the `Mode_Left`,
`Mode_Right` and `Mode_Alternating` cases override it; every other case
leaves it `true`. -/
def needThisView (stereoMode : StereoMode) (alternatingLastView : Int) (v : Int) : Bool :=
  match stereoMode with
  | StereoMode.Mode_Left => v == 0
  | StereoMode.Mode_Right => v == 1
  | StereoMode.Mode_Alternating => v != alternatingLastView
  | _ => true

/-- The aspect-fit computation of `Widget::paintGL` (widget.cpp lines
270-276): `relWidth` and `relHeight` both start at 1; if the screen aspect
ratio `_width / float(_height)` is below the frame display aspect ratio the
height is shrunk, otherwise the width is shrunk.  Returns
(relWidth, relHeight). -/
def aspectFit (width height : Int) (frameDisplayAspect : ℚ) : ℚ × ℚ :=
  let screenAspect : ℚ := (width : ℚ) / (height : ℚ)
  if screenAspect < frameDisplayAspect then
    (1, screenAspect / frameDisplayAspect)
  else
    (frameDisplayAspect / screenAspect, 1)

/-- Resolution of `Mode_Alternating` to the eye due for display, as done in
both display branches of `Widget::paintGL` (widget.cpp lines 297-298 and
307-308): the complement of `_alternatingLastView`. -/
def resolveForDisplay (stereoMode : StereoMode) (alternatingLastView : Int) : StereoMode :=
  if stereoMode == StereoMode.Mode_Alternating then
    (if alternatingLastView == 0 then StereoMode.Mode_Right else StereoMode.Mode_Left)
  else
    stereoMode

/-- Observable per-frame trace of `Widget::paintGL`: the effective stereo
mode after the mono-source adjustment, which views were rendered into the
view textures, the aspect-fit scale factors, the shader stereo-mode value
of each draw call, and whether a redraw was requested at the end. -/
structure PaintTrace where
  effectiveMode : StereoMode
  needLeft : Bool
  needRight : Bool
  relWidth : ℚ
  relHeight : ℚ
  drawCalls : List StereoMode
  updateRequested : Bool
deriving DecidableEq, Repr

/-- `Widget::paintGL` (widget.cpp lines 184-318) as a state transition with
an observable trace.  Steps, in code order: read the frame geometry; copy
`_stereoMode` into a local `stereoMode` and force it to `Mode_Left` when
the frame is not stereo (lines 196-199); for each view, decide
`needThisView` and, when needed, ensure the view texture dimensions
(lines 202-264); compute the aspect-fit factors (lines 270-276); draw
(lines 287-311), resolving `Mode_Alternating` to a concrete eye for the
non-`Mode_OpenGL_Stereo` paths; finally flip `_alternatingLastView` and
request a redraw when the member `_stereoMode` is `Mode_Alternating` and
the frame is stereo (lines 313-317). -/
def paintGL (s : WidgetState) (g : FrameGeometry) : WidgetState × PaintTrace :=
  let frameIsStereo : Bool := g.viewCount == 2
  let stereoMode : StereoMode := if !frameIsStereo then StereoMode.Mode_Left else s.stereoMode
  let needLeft : Bool := needThisView stereoMode s.alternatingLastView 0
  let needRight : Bool := needThisView stereoMode s.alternatingLastView 1
  let tex0 := if needLeft then ensureViewTexture s.tex0 g.viewWidth g.viewHeight else s.tex0
  let tex1 := if needRight then ensureViewTexture s.tex1 g.viewWidth g.viewHeight else s.tex1
  let rel := aspectFit s.width s.height g.displayAspect
  let drawCalls : List StereoMode :=
    if s.openGLStereo then
      if stereoMode == StereoMode.Mode_OpenGL_Stereo then
        [StereoMode.Mode_Left, StereoMode.Mode_Right]
      else
        [resolveForDisplay stereoMode s.alternatingLastView,
         resolveForDisplay stereoMode s.alternatingLastView]
    else
      [resolveForDisplay stereoMode s.alternatingLastView]
  let s1 := { s with tex0 := tex0, tex1 := tex1 }
  let doFlip : Bool := (s.stereoMode == StereoMode.Mode_Alternating) && frameIsStereo
  let s2 :=
    if doFlip then
      { s1 with alternatingLastView := if s1.alternatingLastView == 0 then 1 else 0 }
    else
      s1
  (s2,
   { effectiveMode := stereoMode
     needLeft := needLeft
     needRight := needRight
     relWidth := rel.1
     relHeight := rel.2
     drawCalls := drawCalls
     updateRequested := doFlip })

/-- `Widget::mousePressEvent` (widget.cpp lines 331-337). -/
def mousePressEvent (s : WidgetState) (pos : ℚ × ℚ) : WidgetState :=
  { s with
    inThreeSixtyMovement := true
    threeSixtyMovementStart := pos
    threeSixtyHorizontalAngleCurrent := 0
    threeSixtyVerticalAngleCurrent := 0 }

/-- `Widget::mouseReleaseEvent` (widget.cpp lines 339-346). -/
def mouseReleaseEvent (s : WidgetState) : WidgetState :=
  { s with
    inThreeSixtyMovement := false
    threeSixtyHorizontalAngleBase :=
      s.threeSixtyHorizontalAngleBase + s.threeSixtyHorizontalAngleCurrent
    threeSixtyVerticalAngleBase :=
      s.threeSixtyVerticalAngleBase + s.threeSixtyVerticalAngleCurrent
    threeSixtyHorizontalAngleCurrent := 0
    threeSixtyVerticalAngleCurrent := 0 }

/-- `Widget::mouseMoveEvent` (widget.cpp lines 348-363): when a gesture is
active, the position delta from the gesture start is normalized by the
drawable width/height and mapped, negated, to the current horizontal
(×180°) and vertical (×90°) angle deltas. -/
def mouseMoveEvent (s : WidgetState) (pos : ℚ × ℚ) : WidgetState :=
  if s.inThreeSixtyMovement then
    let dx : ℚ := pos.1 - s.threeSixtyMovementStart.1
    let xf : ℚ := dx / (s.width : ℚ)
    let dy : ℚ := pos.2 - s.threeSixtyMovementStart.2
    let yf : ℚ := dy / (s.height : ℚ)
    { s with
      threeSixtyHorizontalAngleCurrent := -xf * 180
      threeSixtyVerticalAngleCurrent := -yf * 90 }
  else
    s

/-- `Widget::mediaChanged` (widget.cpp lines 365-372). -/
def mediaChanged (s : WidgetState) : WidgetState :=
  { s with
    inThreeSixtyMovement := false
    threeSixtyHorizontalAngleBase := 0
    threeSixtyVerticalAngleBase := 0
    threeSixtyHorizontalAngleCurrent := 0
    threeSixtyVerticalAngleCurrent := 0 }

/-- A full press → move → release gesture cycle, in event order. -/
def dragCycle (s : WidgetState) (press move : ℚ × ℚ) : WidgetState :=
  mouseReleaseEvent (mouseMoveEvent (mousePressEvent s press) move)

/-- The capability data `Widget::initializeGL` inspects: context validity,
OpenGL version of the obtained context, and whether the obtained context
has stereo buffers. -/
structure GLContextFormat where
  isValid : Bool
  majorVersion : Int
  minorVersion : Int
  stereo : Bool
deriving DecidableEq, Repr

/-- The fatal-exit decision of `Widget::initializeGL` (widget.cpp lines
91-105): `std::exit(1)` is reached when `contextIsOk` fails, i.e. when the
context is invalid or `majorVersion() >= 3 && minorVersion() >= 2` does not
hold, or when the default surface format requests stereo but the obtained
context lacks it.  Returns `true` exactly when the fatal exit is taken. -/
def initializeGLFatalExit (ctx : GLContextFormat) (defaultFormatStereo : Bool) : Bool :=
  let contextIsOk : Bool :=
    ctx.isValid && (3 ≤ ctx.majorVersion) && (2 ≤ ctx.minorVersion)
  if !contextIsOk then
    true
  else if defaultFormatStereo && !ctx.stereo then
    true
  else
    false

/-- OpenGL version `(major1, minor1)` is at least `(major2, minor2)` in the
usual major.minor lexicographic ordering. -/
def glVersionAtLeast (major1 minor1 major2 minor2 : Int) : Prop :=
  major2 < major1 ∨ (major1 = major2 ∧ minor2 ≤ minor1)

/-- A concrete widget state used to instantiate universally quantified
theorems. -/
def exampleState : WidgetState :=
  { stereoMode := StereoMode.Mode_Red_Cyan_Dubois
    openGLStereo := false
    alternatingLastView := 1
    width := 1000
    height := 1000
    tex0 := { width := 1, height := 1, allocCount := 1 }
    tex1 := { width := 1, height := 1, allocCount := 1 }
    inThreeSixtyMovement := false
    threeSixtyMovementStart := (0, 0)
    threeSixtyHorizontalAngleBase := 0
    threeSixtyVerticalAngleBase := 0
    threeSixtyHorizontalAngleCurrent := 0
    threeSixtyVerticalAngleCurrent := 0 }

/-- A concrete mono frame geometry (one view). -/
def exampleGeomMono : FrameGeometry :=
  { viewCount := 1, viewWidth := 640, viewHeight := 480
    displayAspect := 4 / 3, threeSixty := false }

/-- A concrete stereo frame geometry (two views). -/
def exampleGeomStereo : FrameGeometry :=
  { viewCount := 2, viewWidth := 1920, viewHeight := 1080
    displayAspect := 16 / 9, threeSixty := false }

/-- C1: for every requested stereo mode, if the current frame has
viewCount = 1 (mono source), the resolved effective mode is `Mode_Left`
and the right view is not needed, so the right view is never rendered. -/
theorem c1_mono_forces_left (s : WidgetState) (g : FrameGeometry)
    (h : g.viewCount = 1) :
    (paintGL s g).2.effectiveMode = StereoMode.Mode_Left ∧
    (paintGL s g).2.needRight = false := by
  simp [paintGL, needThisView, h]

/-- Witness for C1 at a concrete state and a concrete mono geometry. -/
theorem c1_mono_forces_left_witness :
    (paintGL exampleState exampleGeomMono).2.effectiveMode = StereoMode.Mode_Left ∧
    (paintGL exampleState exampleGeomMono).2.needRight = false :=
  c1_mono_forces_left exampleState exampleGeomMono (by decide)

/-- C6: `mediaChanged`, called in any state (including mid-gesture), zeroes
all four orientation angle fields and clears the gesture-active flag. -/
theorem c6_media_changed_reset (s : WidgetState) :
    (mediaChanged s).inThreeSixtyMovement = false ∧
    (mediaChanged s).threeSixtyHorizontalAngleBase = 0 ∧
    (mediaChanged s).threeSixtyVerticalAngleBase = 0 ∧
    (mediaChanged s).threeSixtyHorizontalAngleCurrent = 0 ∧
    (mediaChanged s).threeSixtyVerticalAngleCurrent = 0 :=
  ⟨rfl, rfl, rfl, rfl, rfl⟩

/-- C7: ensuring a view texture is idempotent in its dimensions.  The
allocation counter increases exactly when the stored dimensions differ
from the requested ones; after any call the stored dimensions equal the
requested ones; and a second call with identical dimensions changes
nothing (in particular it performs no allocation). -/
theorem c7_ensure_view_texture_idempotent (t : ViewTexState) (w h : Int) :
    (ensureViewTexture t w h).allocCount =
      (if t.width = w ∧ t.height = h then t.allocCount else t.allocCount + 1) ∧
    (ensureViewTexture t w h).width = w ∧
    (ensureViewTexture t w h).height = h ∧
    ensureViewTexture (ensureViewTexture t w h) w h = ensureViewTexture t w h := by
  unfold ensureViewTexture
  by_cases hw : t.width = w <;> by_cases hh : t.height = h <;> simp [hw, hh]

/-- C10: `paintGL` never modifies the stored requested stereo mode (the
mono forcing and alternating resolution act on a per-frame local copy),
while `setStereoMode` is what changes it. -/
theorem c10_requested_mode_preserved (s : WidgetState) (g : FrameGeometry)
    (m : StereoMode) :
    (paintGL s g).1.stereoMode = s.stereoMode ∧
    (setStereoMode s m).stereoMode = m := by
  refine ⟨?_, rfl⟩
  simp only [paintGL]
  split <;> rfl

/-- C2, as stated, is false: with requested mode `Mode_Left` (which is not
`Mode_Alternating`) and a stereo frame (viewCount = 2), the selector does
not mark both views as needed — the right view is not needed. -/
theorem c2_counterexample :
    ¬ ((paintGL (setStereoMode exampleState StereoMode.Mode_Left) exampleGeomStereo).2.needLeft = true ∧
       (paintGL (setStereoMode exampleState StereoMode.Mode_Left) exampleGeomStereo).2.needRight = true) := by
  intro h
  exact absurd h.2 (by decide)

/-- C2 amended: for every requested stereo mode other than
`Mode_Alternating`, `Mode_Left` and `Mode_Right`, when the frame is stereo
(viewCount = 2) the mode selector marks both the left and the right view
as needed. -/
theorem c2_both_views_needed (s : WidgetState) (g : FrameGeometry)
    (h2 : g.viewCount = 2)
    (hA : s.stereoMode ≠ StereoMode.Mode_Alternating)
    (hL : s.stereoMode ≠ StereoMode.Mode_Left)
    (hR : s.stereoMode ≠ StereoMode.Mode_Right) :
    (paintGL s g).2.needLeft = true ∧ (paintGL s g).2.needRight = true := by
  cases hm : s.stereoMode <;>
    simp_all [paintGL, needThisView, h2]

/-- Witness for the amended C2 at a concrete state (requested mode
`Mode_Red_Cyan_Dubois`) and a concrete stereo geometry. -/
theorem c2_both_views_needed_witness :
    (paintGL exampleState exampleGeomStereo).2.needLeft = true ∧
    (paintGL exampleState exampleGeomStereo).2.needRight = true :=
  c2_both_views_needed exampleState exampleGeomStereo (by decide) (by decide)
    (by decide) (by decide)

/-- C3: in every call to `paintGL`, the alternating parity
(`_alternatingLastView`) flips exactly once if the requested mode is
`Mode_Alternating` and the frame is stereo (viewCount = 2), and is left
unchanged in every other case; in particular the per-eye need-resolution
step never mutates it. -/
theorem c3_parity_flip (s : WidgetState) (g : FrameGeometry) :
    (paintGL s g).1.alternatingLastView =
      (if s.stereoMode = StereoMode.Mode_Alternating ∧ g.viewCount = 2 then
        (if s.alternatingLastView = 0 then 1 else 0)
      else
        s.alternatingLastView) := by
  by_cases hm : s.stereoMode = StereoMode.Mode_Alternating <;>
    by_cases hc : g.viewCount = 2 <;>
      simp [paintGL, hm, hc]

/-- C4: for every drawable size with positive width and height and every
pointer displacement (dx, dy), the cycle press at p, move to p + (dx, dy),
release adds exactly (-dx/width·180, -dy/height·90) degrees to the base
angles, leaves both current deltas at zero, and clears the gesture-active
flag. -/
theorem c4_drag_cycle_commit (s : WidgetState) (px py dx dy : ℚ)
    (hw : 0 < s.width) (hh : 0 < s.height) :
    (dragCycle s (px, py) (px + dx, py + dy)).threeSixtyHorizontalAngleBase =
      s.threeSixtyHorizontalAngleBase + (-(dx / (s.width : ℚ)) * 180) ∧
    (dragCycle s (px, py) (px + dx, py + dy)).threeSixtyVerticalAngleBase =
      s.threeSixtyVerticalAngleBase + (-(dy / (s.height : ℚ)) * 90) ∧
    (dragCycle s (px, py) (px + dx, py + dy)).threeSixtyHorizontalAngleCurrent = 0 ∧
    (dragCycle s (px, py) (px + dx, py + dy)).threeSixtyVerticalAngleCurrent = 0 ∧
    (dragCycle s (px, py) (px + dx, py + dy)).inThreeSixtyMovement = false := by
  refine ⟨?_, ?_, ?_, ?_, ?_⟩ <;>
    simp [dragCycle, mousePressEvent, mouseMoveEvent, mouseReleaseEvent] <;>
    ring

/-- Witness for C4: with width = height = 1000 and a drag of dx = 250,
the committed horizontal delta is -(250/1000)·180 = -45 degrees. -/
theorem c4_drag_cycle_commit_witness :
    (dragCycle exampleState (0, 0) (0 + 250, 0 + 0)).threeSixtyHorizontalAngleBase =
      exampleState.threeSixtyHorizontalAngleBase + (-((250 : ℚ) / ((exampleState.width : Int) : ℚ)) * 180) ∧
    exampleState.threeSixtyHorizontalAngleBase + (-((250 : ℚ) / ((exampleState.width : Int) : ℚ)) * 180) = -45 := by
  refine ⟨(c4_drag_cycle_commit exampleState 0 0 250 0 (by decide) (by decide)).1, ?_⟩
  norm_num [exampleState]

/-- C5: for every drawable size with positive width and height and every
positive frame display aspect ratio, the aspect-fit computation yields
relWidth = 1 and relHeight = screenAspect/frameDisplayAspect when
screenAspect < frameDisplayAspect, and relHeight = 1 and
relWidth = frameDisplayAspect/screenAspect otherwise; exactly one of the
two factors is below 1 unless the two ratios are equal, in which case both
factors are 1. -/
theorem c5_aspect_fit (width height : Int) (frameDisplayAspect : ℚ)
    (hw : 0 < width) (hh : 0 < height) (hf : 0 < frameDisplayAspect) :
    (((width : ℚ) / (height : ℚ) < frameDisplayAspect →
        (aspectFit width height frameDisplayAspect).1 = 1 ∧
        (aspectFit width height frameDisplayAspect).2 =
          ((width : ℚ) / (height : ℚ)) / frameDisplayAspect) ∧
     (¬ (width : ℚ) / (height : ℚ) < frameDisplayAspect →
        (aspectFit width height frameDisplayAspect).2 = 1 ∧
        (aspectFit width height frameDisplayAspect).1 =
          frameDisplayAspect / ((width : ℚ) / (height : ℚ)))) ∧
    ((width : ℚ) / (height : ℚ) ≠ frameDisplayAspect →
       ((aspectFit width height frameDisplayAspect).1 < 1 ∧
        (aspectFit width height frameDisplayAspect).2 = 1) ∨
       ((aspectFit width height frameDisplayAspect).2 < 1 ∧
        (aspectFit width height frameDisplayAspect).1 = 1)) ∧
    ((width : ℚ) / (height : ℚ) = frameDisplayAspect →
       (aspectFit width height frameDisplayAspect).1 = 1 ∧
       (aspectFit width height frameDisplayAspect).2 = 1) := by
  have hwq : (0 : ℚ) < (width : ℚ) := by exact_mod_cast hw
  have hhq : (0 : ℚ) < (height : ℚ) := by exact_mod_cast hh
  have hsq : (0 : ℚ) < (width : ℚ) / (height : ℚ) := div_pos hwq hhq
  by_cases hlt : (width : ℚ) / (height : ℚ) < frameDisplayAspect
  · have hfit : aspectFit width height frameDisplayAspect =
        (1, ((width : ℚ) / (height : ℚ)) / frameDisplayAspect) := by
      simp [aspectFit, hlt]
    rw [hfit]
    refine ⟨⟨fun _ => ⟨rfl, rfl⟩, fun h => absurd hlt h⟩, ?_, ?_⟩
    · exact fun _ => Or.inr ⟨(div_lt_one hf).mpr hlt, rfl⟩
    · exact fun heq => absurd heq (ne_of_lt hlt)
  · have hfit : aspectFit width height frameDisplayAspect =
        (frameDisplayAspect / ((width : ℚ) / (height : ℚ)), 1) := by
      simp [aspectFit, hlt]
    rw [hfit]
    refine ⟨⟨fun h => absurd h hlt, fun _ => ⟨rfl, rfl⟩⟩, ?_, ?_⟩
    · intro hne
      have hgt : frameDisplayAspect < (width : ℚ) / (height : ℚ) :=
        lt_of_le_of_ne (not_lt.mp hlt) (Ne.symm hne)
      exact Or.inl ⟨(div_lt_one hsq).mpr hgt, rfl⟩
    · intro heq
      rw [← heq]
      exact ⟨div_self (ne_of_gt hsq), rfl⟩

/-- Witness for C5: drawable 1920x1080 (screen aspect 16/9) with display
aspect ratio 2 gives relWidth = 1 and relHeight = (16/9)/2 = 8/9. -/
theorem c5_aspect_fit_witness :
    (aspectFit 1920 1080 2).1 = 1 ∧ (aspectFit 1920 1080 2).2 = 8 / 9 := by
  have h := (c5_aspect_fit 1920 1080 2 (by decide) (by decide) (by decide)).1.1 (by norm_num)
  refine ⟨h.1, ?_⟩
  rw [h.2]
  norm_num

/-- C9: during an active gesture, for pointer positions inside the drawable
(coordinates in [0, width] × [0, height], with positive width and height),
the normalized displacement fraction computed by `mouseMoveEvent` lies in
[-1, +1], so the current horizontal angle delta lies in [-180°, +180°] and
the current vertical angle delta in [-90°, +90°]. -/
theorem c9_move_bounds (s : WidgetState) (mx my : ℚ)
    (hact : s.inThreeSixtyMovement = true)
    (hw : 0 < s.width) (hh : 0 < s.height)
    (hs1 : 0 ≤ s.threeSixtyMovementStart.1)
    (hs2 : s.threeSixtyMovementStart.1 ≤ (s.width : ℚ))
    (hs3 : 0 ≤ s.threeSixtyMovementStart.2)
    (hs4 : s.threeSixtyMovementStart.2 ≤ (s.height : ℚ))
    (hm1 : 0 ≤ mx) (hm2 : mx ≤ (s.width : ℚ))
    (hm3 : 0 ≤ my) (hm4 : my ≤ (s.height : ℚ)) :
    (-1 ≤ (mx - s.threeSixtyMovementStart.1) / (s.width : ℚ) ∧
     (mx - s.threeSixtyMovementStart.1) / (s.width : ℚ) ≤ 1) ∧
    (-1 ≤ (my - s.threeSixtyMovementStart.2) / (s.height : ℚ) ∧
     (my - s.threeSixtyMovementStart.2) / (s.height : ℚ) ≤ 1) ∧
    (-180 ≤ (mouseMoveEvent s (mx, my)).threeSixtyHorizontalAngleCurrent ∧
     (mouseMoveEvent s (mx, my)).threeSixtyHorizontalAngleCurrent ≤ 180) ∧
    (-90 ≤ (mouseMoveEvent s (mx, my)).threeSixtyVerticalAngleCurrent ∧
     (mouseMoveEvent s (mx, my)).threeSixtyVerticalAngleCurrent ≤ 90) := by
  have hwq : (0 : ℚ) < (s.width : ℚ) := by exact_mod_cast hw
  have hhq : (0 : ℚ) < (s.height : ℚ) := by exact_mod_cast hh
  have hx1 : -1 ≤ (mx - s.threeSixtyMovementStart.1) / (s.width : ℚ) := by
    rw [le_div_iff hwq]
    linarith
  have hx2 : (mx - s.threeSixtyMovementStart.1) / (s.width : ℚ) ≤ 1 := by
    rw [div_le_one hwq]
    linarith
  have hy1 : -1 ≤ (my - s.threeSixtyMovementStart.2) / (s.height : ℚ) := by
    rw [le_div_iff hhq]
    linarith
  have hy2 : (my - s.threeSixtyMovementStart.2) / (s.height : ℚ) ≤ 1 := by
    rw [div_le_one hhq]
    linarith
  have hmv : mouseMoveEvent s (mx, my) =
      { s with
        threeSixtyHorizontalAngleCurrent :=
          -((mx - s.threeSixtyMovementStart.1) / (s.width : ℚ)) * 180
        threeSixtyVerticalAngleCurrent :=
          -((my - s.threeSixtyMovementStart.2) / (s.height : ℚ)) * 90 } := by
    simp [mouseMoveEvent, hact]
  rw [hmv]
  refine ⟨⟨hx1, hx2⟩, ⟨hy1, hy2⟩, ⟨?_, ?_⟩, ⟨?_, ?_⟩⟩ <;> simp only [] <;> nlinarith

/-- Witness for C9 at a concrete active-gesture state (width = height =
1000, gesture start (0, 0)) and a concrete move position (500, 500). -/
theorem c9_move_bounds_witness :
    (-1 ≤ ((500 : ℚ) - (mousePressEvent exampleState (0, 0)).threeSixtyMovementStart.1) /
        ((mousePressEvent exampleState (0, 0)).width : ℚ) ∧
     ((500 : ℚ) - (mousePressEvent exampleState (0, 0)).threeSixtyMovementStart.1) /
        ((mousePressEvent exampleState (0, 0)).width : ℚ) ≤ 1) ∧
    (-1 ≤ ((500 : ℚ) - (mousePressEvent exampleState (0, 0)).threeSixtyMovementStart.2) /
        ((mousePressEvent exampleState (0, 0)).height : ℚ) ∧
     ((500 : ℚ) - (mousePressEvent exampleState (0, 0)).threeSixtyMovementStart.2) /
        ((mousePressEvent exampleState (0, 0)).height : ℚ) ≤ 1) ∧
    (-180 ≤ (mouseMoveEvent (mousePressEvent exampleState (0, 0)) (500, 500)).threeSixtyHorizontalAngleCurrent ∧
     (mouseMoveEvent (mousePressEvent exampleState (0, 0)) (500, 500)).threeSixtyHorizontalAngleCurrent ≤ 180) ∧
    (-90 ≤ (mouseMoveEvent (mousePressEvent exampleState (0, 0)) (500, 500)).threeSixtyVerticalAngleCurrent ∧
     (mouseMoveEvent (mousePressEvent exampleState (0, 0)) (500, 500)).threeSixtyVerticalAngleCurrent ≤ 90) :=
  c9_move_bounds (mousePressEvent exampleState (0, 0)) 500 500 rfl
    (by decide) (by decide) (by decide) (by decide) (by decide) (by decide)
    (by decide) (by decide) (by decide) (by decide)

/-- C8 fails on the code: a valid context reporting OpenGL version 4.0,
with stereo not requested, has a version at least 3.2 in the usual
major.minor ordering, yet `initializeGL` takes the fatal-error exit,
because the code tests `majorVersion() >= 3 && minorVersion() >= 2` and
4.0 has minor version 0 < 2. -/
theorem c8_version_check_bug :
    glVersionAtLeast 4 0 3 2 ∧
    initializeGLFatalExit
      { isValid := true, majorVersion := 4, minorVersion := 0, stereo := false }
      false = true := by
  constructor
  · exact Or.inl (by decide)
  · rfl
